import Mathlib

/-!
Shallow embedding of `src/ETL-daily/ETL_pipeline.py`: a daily batch pipeline
that discovers news articles via the GDELT DOC API, scrapes each article's
body text, classifies it via an external endpoint, and persists results to a
PostgreSQL table with duplicate suppression on `url`.

External collaborators (the HTTP client, HTML parser, SQL driver, JSON codec)
are modelled by oracles describing their observable outcomes; the pipeline's
own control flow, counters, SQL conflict semantics and serialisation choices
are translated from the source.
-/

set_option autoImplicit false

namespace ETL

/-- JSON values, as produced by `response.json()` and consumed by
`json.dumps`.  Python's `None` corresponds to `Json.null`. -/
inductive Json where
  | null : Json
  | bool (b : Bool) : Json
  | num (n : Int) : Json
  | str (s : String) : Json
  | arr (xs : List Json) : Json
  | obj (fields : List (String × Json)) : Json

mutual

/-- Model of Python's `json.dumps` on JSON values: `json.dumps(None) = "null"`,
objects render brace-delimited, arrays bracket-delimited. -/
def json_dumps : Json → String
  | .null => "null"
  | .bool b => if b then "true" else "false"
  | .num n => toString n
  | .str s => "\"" ++ s ++ "\""
  | .arr xs => "[" ++ json_dumps_items xs ++ "]"
  | .obj fs => "\x7b" ++ json_dumps_fields fs ++ "\x7d"

/-- Comma-separated rendering of a JSON array's items. -/
def json_dumps_items : List Json → String
  | [] => ""
  | [x] => json_dumps x
  | x :: y :: xs => json_dumps x ++ ", " ++ json_dumps_items (y :: xs)

/-- Comma-separated rendering of a JSON object's key/value fields. -/
def json_dumps_fields : List (String × Json) → String
  | [] => ""
  | [(k, v)] => "\"" ++ k ++ "\": " ++ json_dumps v
  | (k, v) :: f :: fs =>
      "\"" ++ k ++ "\": " ++ json_dumps v ++ ", " ++ json_dumps_fields (f :: fs)

end

/-- `json.dumps` applied to a possibly-absent classification result
(`class_json = json.dumps(class_res)` at line 152 of the source); Python's
`None` serialises as the JSON text `null`. -/
def dumpsOpt : Option Json → String
  | none => json_dumps Json.null
  | some j => json_dumps j

/-- A discovered article reference: the fields the main loop extracts from
each element of `data['articles']` (`title`, `url`, `domain`). -/
structure ArticleRef where
  title : String
  url : String
  domain : String
deriving DecidableEq, Repr

/-- A persisted row of `public.articles`; columns as in `insert_query`. -/
structure ArticleRecord where
  source_domain : String
  title : String
  url : String
  scraped_text : String
  classification_json : String
deriving DecidableEq, Repr

/-- Observable outcome of the HTTP fetch inside `get_article_text`:
a 200 response carrying the document's paragraph (`<p>`) texts in document
order, a non-200 status, or a raised exception (timeout / network fault). -/
inductive FetchResult where
  | ok (paragraphs : List String) : FetchResult
  | httpError (code : Nat) : FetchResult
  | raise : FetchResult
deriving DecidableEq, Repr

/-- Maximal runs of non-whitespace characters, in order; the accumulator
holds the current in-progress word reversed.  This is the character-level
behaviour of Python's `str.split()` with no argument. -/
def wordsAux : List Char → List Char → List (List Char)
  | [], cur => if cur = [] then [] else [cur.reverse]
  | c :: cs, cur =>
      if c.isWhitespace then
        if cur = [] then wordsAux cs [] else cur.reverse :: wordsAux cs []
      else wordsAux cs (c :: cur)

/-- Python's `s.split()`: split on whitespace runs, discarding empty pieces. -/
def pySplit (s : String) : List String :=
  (wordsAux s.data []).map (fun cs => String.mk cs)

/-- Python's `sep.join(parts)`. -/
def pyJoin (sep : String) : List String → String
  | [] => ""
  | [x] => x
  | x :: y :: xs => x ++ sep ++ pyJoin sep (y :: xs)

/-- `' '.join(article_text.split())` — the whitespace clean-up step. -/
def normalizeWs (s : String) : String :=
  pyJoin " " (pySplit s)

/-- `get_article_text` (source lines 48–71): on HTTP 200, join all `<p>`
texts with single spaces and normalise whitespace; on non-200 status or any
exception, return `None`. -/
def get_article_text (fetch : FetchResult) : Option String :=
  match fetch with
  | .ok paragraphs => some (normalizeWs (pyJoin " " paragraphs))
  | .httpError _ => none
  | .raise => none

/-- Observable outcome of the POST inside `classify_text`: a 200 response
with a decoded JSON body, a non-200 status, or a raised exception. -/
inductive ClassifyOutcome where
  | ok (body : Json) : ClassifyOutcome
  | httpError (code : Nat) (text : String) : ClassifyOutcome
  | raise : ClassifyOutcome

/-- `classify_text` (source lines 29–46): return the decoded JSON on HTTP
200, `None` on any non-200 status or raised exception. -/
def classify_text (outcome : ClassifyOutcome) : Option Json :=
  match outcome with
  | .ok body => some body
  | .httpError _ _ => none
  | .raise => none

/-- The store: rows of `public.articles`, in insertion order. -/
abbrev Store := List ArticleRecord

/-- `INSERT ... ON CONFLICT (url) DO NOTHING` followed by the
`cur.rowcount > 0` check: returns whether a new row was written, and the
resulting table.  A conflicting `url` leaves the table untouched. -/
def insertIfAbsent (db : Store) (r : ArticleRecord) : Bool × Store :=
  if db.any (fun row => row.url = r.url) then (false, db)
  else (true, db ++ [r])

/-- The external world's behaviour for one discovered article: its reference
fields, the scrape fetch outcome, the classification call outcome, and
whether `cur.execute` raises a database exception for this row. -/
structure ItemWorld where
  ref : ArticleRef
  fetch : FetchResult
  classifyOutcome : ClassifyOutcome
  insertRaises : Bool

/-- Mutable state threaded through the main loop: the table contents and the
two global counters. -/
structure LoopState where
  db : Store
  processed : Nat
  inserted : Nat
deriving DecidableEq, Repr

/-- Externally observable calls made by the run (network requests and
SQL insert attempts). -/
inductive Event where
  | discoveryCall : Event
  | scrapeCall (url : String) : Event
  | classifyCall (text : String) : Event
  | insertAttempt (rec : ArticleRecord) : Event
deriving DecidableEq, Repr

/-- Whether an event is a store-insert attempt (`cur.execute`). -/
def Event.isInsertAttempt : Event → Bool
  | .insertAttempt _ => true
  | _ => false

/-- Whether an event is a classification call. -/
def Event.isClassifyCall : Event → Bool
  | .classifyCall _ => true
  | _ => false

/-- The url of a scrape call, if the event is one. -/
def Event.scrapeUrl : Event → Option String
  | .scrapeCall u => some u
  | _ => none

/-- One iteration of the main loop (source lines 135–168).  The whole body
sits in a per-article `try/except`; an exception from `cur.execute` is caught
there, leaving the counters and table unchanged.  `get_article_text` and
`classify_text` catch their own exceptions internally and return `None`
instead of raising. -/
def processItem (st : LoopState) (w : ItemWorld) : LoopState × List Event :=
  match get_article_text w.fetch with
  | none =>
      -- "Skipping (scraping failed)." — continue without classify or insert
      (st, [.scrapeCall w.ref.url])
  | some body =>
      let classRes := classify_text w.classifyOutcome
      let classJson := dumpsOpt classRes
      let row : ArticleRecord :=
        ⟨w.ref.domain, w.ref.title, w.ref.url, body, classJson⟩
      let evs := [Event.scrapeCall w.ref.url, Event.classifyCall body,
                  Event.insertAttempt row]
      if w.insertRaises then
        -- the exception is caught by the per-article handler; counters stay
        (st, evs)
      else
        let res := insertIfAbsent st.db row
        ({ db := res.2,
           processed := st.processed + 1,
           inserted := if res.1 then st.inserted + 1 else st.inserted },
         evs)

/-- The main loop over `data['articles']`, threading the loop state and
collecting the events of each iteration in order. -/
def runLoop (st : LoopState) : List ItemWorld → LoopState × List Event
  | [] => (st, [])
  | w :: rest =>
      let step := processItem st w
      let toEnd := runLoop step.1 rest
      (toEnd.1, step.2 ++ toEnd.2)

/-- Observable outcome of the GDELT discovery request (source lines
126–132): a successful JSON body carrying the articles list (`ok []` also
covers a parsed body without an `articles` key), a non-200 status or empty
body, a body that fails to parse as JSON, or a raised network exception. -/
inductive Discovery where
  | ok (items : List ItemWorld) : Discovery
  | httpFail : Discovery
  | parseFail : Discovery
  | netRaise : Discovery

/-- The run's environment: the `DATABASE_URL` value, whether
`psycopg2.connect` succeeds, the table contents before the run, and the
discovery outcome together with the per-article world. -/
structure RunWorld where
  dbUrl : Option String
  connectOk : Bool
  initDb : Store
  discovery : Discovery

/-- `get_db_connection` (source lines 16–26): `None` when `DATABASE_URL` is
unset or empty (falsy) and when `psycopg2.connect` raises; modelled as
whether a connection is obtained. -/
def get_db_connection (w : RunWorld) : Bool :=
  match w.dbUrl with
  | none => false
  | some s => if s = "" then false else w.connectOk

/-- Observable result of one whole run of the script. -/
structure RunResult where
  events : List Event
  exitCode : Nat
  committed : Bool
  rolledBack : Bool
  connClosed : Bool
  /-- The final "Successfully processed … / Inserted …" report, when
  printed. -/
  reported : Option (Nat × Nat)
  db : Store
  processed : Nat
  inserted : Nat

/-- The script's top-level flow (source lines 106–199): connect, discover,
iterate, commit; `sys.exit(1)` when no connection; the `finally` block closes
the connection whenever one was opened. -/
def runPipeline (w : RunWorld) : RunResult :=
  if get_db_connection w then
    match w.discovery with
    | .netRaise =>
        -- requests.get raises: caught by the outer handler, which rolls back
        { events := [.discoveryCall], exitCode := 0, committed := false,
          rolledBack := true, connClosed := true, reported := none,
          db := w.initDb, processed := 0, inserted := 0 }
    | .httpFail =>
        -- "GDELT API request failed": no commit, connection closed
        { events := [.discoveryCall], exitCode := 0, committed := false,
          rolledBack := false, connClosed := true, reported := none,
          db := w.initDb, processed := 0, inserted := 0 }
    | .parseFail =>
        -- "API returned non-JSON content": no commit, connection closed
        { events := [.discoveryCall], exitCode := 0, committed := false,
          rolledBack := false, connClosed := true, reported := none,
          db := w.initDb, processed := 0, inserted := 0 }
    | .ok items =>
        if items.isEmpty then
          -- "No articles found matching criteria.": no loop, no commit
          { events := [.discoveryCall], exitCode := 0, committed := false,
            rolledBack := false, connClosed := true, reported := none,
            db := w.initDb, processed := 0, inserted := 0 }
        else
          let res := runLoop ⟨w.initDb, 0, 0⟩ items
          { events := Event.discoveryCall :: res.2, exitCode := 0,
            committed := true, rolledBack := false, connClosed := true,
            reported := some (res.1.processed, res.1.inserted),
            db := res.1.db, processed := res.1.processed,
            inserted := res.1.inserted }
  else
    -- "Script aborted: Could not connect to the database." / sys.exit(1)
    { events := [], exitCode := 1, committed := false, rolledBack := false,
      connClosed := false, reported := none, db := w.initDb,
      processed := 0, inserted := 0 }

/-- The spec's description (§4.3) of a successful scrape result: every
whitespace-separated word of every paragraph's text, in document order,
joined by single spaces. -/
def spec_scrape_result (paragraphs : List String) : String :=
  pyJoin " " ((paragraphs.map pySplit).flatten)

/-- Sample article whose scrape succeeds and whose classification raises. -/
def sampleScrapeOkClassifyFail : ItemWorld :=
  ⟨⟨"Title A", "http://a.example/one", "a.example"⟩, .ok ["Some text"],
   .raise, false⟩

/-- Sample article whose scrape returns a non-200 status. -/
def sampleScrapeFail : ItemWorld :=
  ⟨⟨"Title B", "http://b.example/two", "b.example"⟩, .httpError 403,
   .ok .null, false⟩

/-- Sample article whose insert raises a database exception. -/
def sampleInsertRaises : ItemWorld :=
  ⟨⟨"Title C", "http://c.example/three", "c.example"⟩, .ok ["Other text"],
   .ok (.obj [("label", .str "x")]), true⟩

/-- Sample article for which every stage succeeds. -/
def sampleAllOk : ItemWorld :=
  ⟨⟨"Title D", "http://d.example/four", "d.example"⟩, .ok ["More", "text"],
   .ok (.obj [("label", .str "y")]), false⟩

/-- A run environment with a working database and the given discovery
outcome, starting from an empty table. -/
def sampleWorld (d : Discovery) : RunWorld :=
  ⟨some "postgres://db.example/etl", true, [], d⟩

/-- A run environment whose `DATABASE_URL` is unset. -/
def sampleWorldNoDbUrl : RunWorld :=
  ⟨none, true, [], .ok [sampleAllOk]⟩

/-- Sample row of the articles table. -/
def sampleRow : ArticleRecord :=
  ⟨"e.example", "Title E", "http://e.example/five", "stored text", "null"⟩

/-- A second record sharing `sampleRow`'s url but differing elsewhere. -/
def sampleRowDup : ArticleRecord :=
  ⟨"e.example", "Title E bis", "http://e.example/five", "other text",
   "\x7b\x7d"⟩

/-! ## Lemmas about word splitting and joining -/

/-- Splitting distributes over a single-space separator at the character
level: the words of `xs ++ ' ' :: ys` are the words of `xs` followed by the
words of `ys`, whatever partial word the accumulator holds. -/
theorem wordsAux_append_ws (xs ys cur : List Char) :
    wordsAux (xs ++ ' ' :: ys) cur = wordsAux xs cur ++ wordsAux ys [] := by
  induction xs generalizing cur with
  | nil =>
      simp only [List.nil_append, wordsAux]
      simp only [show (' ').isWhitespace = true from by decide, if_true]
      by_cases hc : cur = [] <;> simp [hc]
  | cons c cs ih =>
      simp only [List.cons_append, wordsAux]
      split
      · split <;> simp [ih]
      · exact ih _

/-- The character data of `a ++ " " ++ b`. -/
theorem data_append_sep (a b : String) :
    (a ++ " " ++ b).data = a.data ++ ' ' :: b.data := by
  simp [String.data_append]

/-- `str.split()` distributes over joining two strings with one space. -/
theorem pySplit_append_sep (a b : String) :
    pySplit (a ++ " " ++ b) = pySplit a ++ pySplit b := by
  simp [pySplit, data_append_sep, wordsAux_append_ws]

/-- The words of `' '.join(ps)` are the words of the parts, concatenated in
order. -/
theorem pySplit_join (ps : List String) :
    pySplit (pyJoin " " ps) = (ps.map pySplit).flatten := by
  induction ps with
  | nil => rfl
  | cons x xs ih =>
      cases xs with
      | nil => simp [pyJoin, pySplit]
      | cons y ys =>
          simp only [pyJoin, List.map_cons, List.flatten_cons]
          rw [pySplit_append_sep, ih]
          simp

/-! ## Claim C9 -/

/-- C9: for every URL whose fetch succeeds with HTTP 200, `get_article_text`
returns the whitespace-normalized concatenation of the text content of every
paragraph element in document order, joined by single spaces — as a present
value; in particular a page with zero paragraph elements yields the empty
string, not absent. -/
theorem c9_scrape_success_is_normalized_join (paragraphs : List String) :
    get_article_text (.ok paragraphs) = some (spec_scrape_result paragraphs)
    ∧ (get_article_text (.ok paragraphs)).isSome = true
    ∧ get_article_text (.ok ([] : List String)) = some "" := by
  refine ⟨?_, by simp [get_article_text], rfl⟩
  simp [get_article_text, normalizeWs, spec_scrape_result, pySplit_join]

/-! ## Claim C1 -/

/-- The serialisation of a JSON object (a successful classification result
is a mapping) is never the text `null`. -/
theorem json_dumps_obj_ne_null (fs : List (String × Json)) :
    json_dumps (Json.obj fs) ≠ json_dumps Json.null := by
  intro h
  rw [json_dumps, json_dumps] at h
  have h2 := congrArg String.data h
  simp [String.data_append] at h2

/-- C1: for every article whose scrape succeeds but whose classification
returns absent, the loop iteration still stores a row whose `scraped_text`
is the scraped body and whose `classification_json` is the serialisation of
the JSON null marker — the text `null`, which is not the serialisation of
any successful (object-valued) classification result. -/
theorem c1_absent_classification_still_stored (st : LoopState) (w : ItemWorld)
    (body : String)
    (hscrape : get_article_text w.fetch = some body)
    (hclass : classify_text w.classifyOutcome = none)
    (hexec : w.insertRaises = false)
    (hfresh : ∀ row ∈ st.db, row.url ≠ w.ref.url) :
    (processItem st w).1.db
      = st.db
        ++ [⟨w.ref.domain, w.ref.title, w.ref.url, body, json_dumps Json.null⟩]
    ∧ (processItem st w).1.processed = st.processed + 1
    ∧ json_dumps Json.null = "null"
    ∧ ∀ fs : List (String × Json),
        json_dumps (Json.obj fs) ≠ json_dumps Json.null := by
  have hany : (st.db.any fun row => row.url = w.ref.url) = false := by
    simp only [List.any_eq_false, decide_eq_true_eq]
    exact hfresh
  refine ⟨?_, ?_, rfl, json_dumps_obj_ne_null⟩ <;>
    simp [processItem, hscrape, hclass, hexec, dumpsOpt, insertIfAbsent, hany]

/-- C1 witness: a concrete article with successful scrape, failed
classification, a working insert and a fresh url. -/
theorem c1_absent_classification_witness :
    get_article_text sampleScrapeOkClassifyFail.fetch = some "Some text"
    ∧ classify_text sampleScrapeOkClassifyFail.classifyOutcome = none
    ∧ sampleScrapeOkClassifyFail.insertRaises = false
    ∧ (∀ row ∈ (⟨[], 0, 0⟩ : LoopState).db,
        row.url ≠ sampleScrapeOkClassifyFail.ref.url)
    ∧ ((processItem ⟨[], 0, 0⟩ sampleScrapeOkClassifyFail).1.db
        = [] ++ [⟨sampleScrapeOkClassifyFail.ref.domain,
                  sampleScrapeOkClassifyFail.ref.title,
                  sampleScrapeOkClassifyFail.ref.url, "Some text",
                  json_dumps Json.null⟩]
      ∧ (processItem ⟨[], 0, 0⟩ sampleScrapeOkClassifyFail).1.processed = 0 + 1
      ∧ json_dumps Json.null = "null"
      ∧ ∀ fs : List (String × Json),
          json_dumps (Json.obj fs) ≠ json_dumps Json.null) :=
  ⟨rfl, rfl, rfl, by simp,
   c1_absent_classification_still_stored ⟨[], 0, 0⟩ sampleScrapeOkClassifyFail
     "Some text" rfl rfl rfl (by simp)⟩

/-! ## Claim C7 -/

/-- C7: calling `insert_if_absent` twice with records sharing a url — the
url not yet present — returns `true` then `false`, leaves the table exactly
as after the first call (no overwrite), and the table ends with exactly one
row for that url. -/
theorem c7_insert_if_absent_idempotent (db : Store) (r r' : ArticleRecord)
    (hurl : r'.url = r.url)
    (hfresh : ∀ row ∈ db, row.url ≠ r.url) :
    (insertIfAbsent db r).1 = true
    ∧ (insertIfAbsent (insertIfAbsent db r).2 r').1 = false
    ∧ (insertIfAbsent (insertIfAbsent db r).2 r').2 = (insertIfAbsent db r).2
    ∧ ((insertIfAbsent (insertIfAbsent db r).2 r').2.filter
        (fun row => row.url = r.url)).length = 1 := by
  have hany : (db.any fun row => row.url = r.url) = false := by
    simp only [List.any_eq_false, decide_eq_true_eq]
    exact hfresh
  have h1 : insertIfAbsent db r = (true, db ++ [r]) := by
    simp [insertIfAbsent, hany]
  have hany2 : ((db ++ [r]).any fun row => row.url = r'.url) = true := by
    simp [List.any_eq_true]
    exact Or.inr (by simp [hurl])
  have h2 : insertIfAbsent (db ++ [r]) r' = (false, db ++ [r]) := by
    simp [insertIfAbsent, hany2]
  have hfilter : db.filter (fun row => row.url = r.url) = [] := by
    simp only [List.filter_eq_nil_iff, decide_eq_true_eq]
    exact hfresh
  refine ⟨by simp [h1], by simp [h1, h2], by simp [h1, h2], ?_⟩
  simp [h1, h2, List.filter_append, hfilter]

/-- C7 witness: two concrete records with the same url against an empty
table. -/
theorem c7_insert_if_absent_witness :
    sampleRowDup.url = sampleRow.url
    ∧ (∀ row ∈ ([] : Store), row.url ≠ sampleRow.url)
    ∧ ((insertIfAbsent [] sampleRow).1 = true
      ∧ (insertIfAbsent (insertIfAbsent [] sampleRow).2 sampleRowDup).1 = false
      ∧ (insertIfAbsent (insertIfAbsent [] sampleRow).2 sampleRowDup).2
          = (insertIfAbsent [] sampleRow).2
      ∧ ((insertIfAbsent (insertIfAbsent [] sampleRow).2 sampleRowDup).2.filter
          (fun row => row.url = sampleRow.url)).length = 1) :=
  ⟨rfl, by simp,
   c7_insert_if_absent_idempotent [] sampleRow sampleRowDup rfl (by simp)⟩

/-! ## Claim C8 -/

/-- C8: when the store connection cannot be opened — in particular when
`DATABASE_URL` is absent — the run makes zero network or store calls and the
process exits with a nonzero code. -/
theorem c8_no_connection_no_network (w : RunWorld)
    (hconn : get_db_connection w = false) :
    (runPipeline w).events = [] ∧ (runPipeline w).exitCode ≠ 0 := by
  simp [runPipeline, hconn]

/-- C8 witness: a run whose `DATABASE_URL` is unset. -/
theorem c8_no_connection_witness :
    get_db_connection sampleWorldNoDbUrl = false
    ∧ ((runPipeline sampleWorldNoDbUrl).events = []
      ∧ (runPipeline sampleWorldNoDbUrl).exitCode ≠ 0) :=
  ⟨rfl, c8_no_connection_no_network sampleWorldNoDbUrl rfl⟩

/-! ## Claim C2 -/

/-- C2 counterexample: a run with a working connection whose discovery
succeeds with zero articles issues no commit and never prints the
processed/inserted report — `conn.commit()` and the report sit inside the
`len(data['articles']) > 0` branch — refuting the claim that such a run
commits the empty transaction and reports the counters. -/
theorem c2_zero_articles_counterexample :
    (runPipeline (sampleWorld (.ok []))).committed = false
    ∧ (runPipeline (sampleWorld (.ok []))).reported = none
    ∧ (runPipeline (sampleWorld (.ok []))).exitCode = 0 :=
  ⟨rfl, rfl, rfl⟩

/-- C2 (amended): for every run in which the store connection opens and
discovery succeeds with zero articles, the run performs no per-article work
and issues neither commit nor rollback (printing the no-articles message
instead of the counters report), the counters stay at zero, the connection
is closed, and the process exits with code 0. -/
theorem c2_zero_articles_benign (w : RunWorld)
    (hconn : get_db_connection w = true)
    (hdisc : w.discovery = .ok []) :
    (runPipeline w).committed = false
    ∧ (runPipeline w).rolledBack = false
    ∧ (runPipeline w).events = [.discoveryCall]
    ∧ (runPipeline w).processed = 0
    ∧ (runPipeline w).inserted = 0
    ∧ (runPipeline w).reported = none
    ∧ (runPipeline w).db = w.initDb
    ∧ (runPipeline w).connClosed = true
    ∧ (runPipeline w).exitCode = 0 := by
  simp [runPipeline, hconn, hdisc]

/-- C2 witness: the concrete zero-articles run. -/
theorem c2_zero_articles_witness :
    get_db_connection (sampleWorld (.ok [])) = true
    ∧ (sampleWorld (.ok [])).discovery = .ok []
    ∧ ((runPipeline (sampleWorld (.ok []))).committed = false
      ∧ (runPipeline (sampleWorld (.ok []))).rolledBack = false
      ∧ (runPipeline (sampleWorld (.ok []))).events = [.discoveryCall]
      ∧ (runPipeline (sampleWorld (.ok []))).processed = 0
      ∧ (runPipeline (sampleWorld (.ok []))).inserted = 0
      ∧ (runPipeline (sampleWorld (.ok []))).reported = none
      ∧ (runPipeline (sampleWorld (.ok []))).db = (sampleWorld (.ok [])).initDb
      ∧ (runPipeline (sampleWorld (.ok []))).connClosed = true
      ∧ (runPipeline (sampleWorld (.ok []))).exitCode = 0) :=
  ⟨rfl, rfl, c2_zero_articles_benign (sampleWorld (.ok [])) rfl rfl⟩

/-! ## Claim C3 -/

/-- C3: for every run in which discovery fails — a non-200 status or empty
body, or a body that fails to parse as JSON — the run aborts entirely: the
only external call is the discovery request itself (no scrape, classify or
insert work), no commit is issued, the table is untouched, and the store
connection is still closed. -/
theorem c3_discovery_failure_aborts (w : RunWorld)
    (hconn : get_db_connection w = true)
    (hdisc : w.discovery = .httpFail ∨ w.discovery = .parseFail) :
    (runPipeline w).events = [.discoveryCall]
    ∧ (runPipeline w).committed = false
    ∧ (runPipeline w).db = w.initDb
    ∧ (runPipeline w).events.filterMap Event.scrapeUrl = []
    ∧ (runPipeline w).events.filter Event.isClassifyCall = []
    ∧ (runPipeline w).events.filter Event.isInsertAttempt = []
    ∧ (runPipeline w).connClosed = true := by
  rcases hdisc with h | h <;>
    simp [runPipeline, hconn, h, Event.scrapeUrl, Event.isClassifyCall,
          Event.isInsertAttempt]

/-- C3 witness: a concrete run whose discovery request fails. -/
theorem c3_discovery_failure_witness :
    get_db_connection (sampleWorld .httpFail) = true
    ∧ ((sampleWorld .httpFail).discovery = .httpFail
        ∨ (sampleWorld .httpFail).discovery = .parseFail)
    ∧ ((runPipeline (sampleWorld .httpFail)).events = [.discoveryCall]
      ∧ (runPipeline (sampleWorld .httpFail)).committed = false
      ∧ (runPipeline (sampleWorld .httpFail)).db
          = (sampleWorld .httpFail).initDb
      ∧ (runPipeline (sampleWorld .httpFail)).events.filterMap
          Event.scrapeUrl = []
      ∧ (runPipeline (sampleWorld .httpFail)).events.filter
          Event.isClassifyCall = []
      ∧ (runPipeline (sampleWorld .httpFail)).events.filter
          Event.isInsertAttempt = []
      ∧ (runPipeline (sampleWorld .httpFail)).connClosed = true) :=
  ⟨rfl, Or.inl rfl,
   c3_discovery_failure_aborts (sampleWorld .httpFail) rfl (Or.inl rfl)⟩

/-! ## Lemmas about the main loop -/

/-- An iteration whose scrape returns absent leaves the state unchanged and
performs only the scrape call. -/
theorem processItem_scrape_none (st : LoopState) (w : ItemWorld)
    (h : get_article_text w.fetch = none) :
    processItem st w = (st, [.scrapeCall w.ref.url]) := by
  simp [processItem, h]

/-- Unfolding of `runLoop` on a cons cell. -/
theorem runLoop_cons_eq (st : LoopState) (w : ItemWorld)
    (rest : List ItemWorld) :
    runLoop st (w :: rest)
      = ((runLoop (processItem st w).1 rest).1,
         (processItem st w).2 ++ (runLoop (processItem st w).1 rest).2) := rfl

/-- `insertIfAbsent` either reports a conflict and leaves the table alone,
or reports success and appends the new row. -/
theorem insertIfAbsent_cases (db : Store) (row : ArticleRecord) :
    insertIfAbsent db row = (false, db)
    ∨ insertIfAbsent db row = (true, db ++ [row]) := by
  unfold insertIfAbsent
  split <;> simp

/-- Every iteration performs exactly one scrape call, for its own url. -/
theorem processItem_scrapeUrls (st : LoopState) (w : ItemWorld) :
    (processItem st w).2.filterMap Event.scrapeUrl = [w.ref.url] := by
  cases h : get_article_text w.fetch with
  | none => simp [processItem, h, Event.scrapeUrl]
  | some body =>
      cases hr : w.insertRaises <;> simp [processItem, h, hr, Event.scrapeUrl]

/-- The loop scrapes every discovered article's url, in order. -/
theorem runLoop_scrapeUrls (st : LoopState) (items : List ItemWorld) :
    (runLoop st items).2.filterMap Event.scrapeUrl
      = items.map (fun w => w.ref.url) := by
  induction items generalizing st with
  | nil => rfl
  | cons w rest ih =>
      rw [runLoop_cons_eq]
      simp [List.filterMap_append, processItem_scrapeUrls, ih]

/-- One iteration makes an insert attempt exactly when its scrape result is
present. -/
theorem processItem_insertAttempts (st : LoopState) (w : ItemWorld) :
    ((processItem st w).2.filter Event.isInsertAttempt).length
      = if (get_article_text w.fetch).isSome then 1 else 0 := by
  cases h : get_article_text w.fetch with
  | none => simp [processItem, h, Event.isInsertAttempt]
  | some body =>
      cases hr : w.insertRaises <;>
        simp [processItem, h, hr, Event.isInsertAttempt]

/-- The loop's insert attempts are in bijection with the items whose scrape
result is present. -/
theorem runLoop_insertAttempts (st : LoopState) (items : List ItemWorld) :
    ((runLoop st items).2.filter Event.isInsertAttempt).length
      = (items.filter (fun w => (get_article_text w.fetch).isSome)).length := by
  induction items generalizing st with
  | nil => rfl
  | cons w rest ih =>
      rw [runLoop_cons_eq]
      simp only [List.filter_append, List.length_append,
        processItem_insertAttempts, ih, List.filter_cons]
      split
      · simp
        omega
      · simp

/-- One iteration increments `processed` by at most one. -/
theorem processItem_processed_cases (st : LoopState) (w : ItemWorld) :
    (processItem st w).1.processed = st.processed
    ∨ (processItem st w).1.processed = st.processed + 1 := by
  cases h : get_article_text w.fetch with
  | none => simp [processItem, h]
  | some body =>
      cases hr : w.insertRaises <;> simp [processItem, h, hr]

/-- `processed` is incremented exactly when the scrape result is present and
the insert attempt completes without raising. -/
theorem processItem_processed_iff (st : LoopState) (w : ItemWorld) :
    (processItem st w).1.processed = st.processed + 1
      ↔ (get_article_text w.fetch).isSome = true ∧ w.insertRaises = false := by
  cases h : get_article_text w.fetch with
  | none => simp [processItem, h]
  | some body =>
      cases hr : w.insertRaises <;> simp [processItem, h, hr]

/-- `inserted` is either untouched, or incremented together with
`processed` in a step that appended one new row to the table. -/
theorem processItem_inserted_cases (st : LoopState) (w : ItemWorld) :
    (processItem st w).1.inserted = st.inserted
    ∨ ((processItem st w).1.inserted = st.inserted + 1
        ∧ (processItem st w).1.processed = st.processed + 1
        ∧ (processItem st w).1.db.length = st.db.length + 1) := by
  cases h : get_article_text w.fetch with
  | none => simp [processItem, h]
  | some body =>
      cases hr : w.insertRaises with
      | true => simp [processItem, h, hr]
      | false =>
          rcases insertIfAbsent_cases st.db
              ⟨w.ref.domain, w.ref.title, w.ref.url, body,
               dumpsOpt (classify_text w.classifyOutcome)⟩ with hc | hc <;>
            simp [processItem, h, hr, hc]

/-- One iteration preserves `inserted ≤ processed`. -/
theorem processItem_inserted_le (st : LoopState) (w : ItemWorld)
    (h : st.inserted ≤ st.processed) :
    (processItem st w).1.inserted ≤ (processItem st w).1.processed := by
  rcases processItem_inserted_cases st w with h1 | ⟨h1, h2, _⟩
  · rcases processItem_processed_cases st w with h2 | h2 <;> omega
  · omega

/-- The loop increments `processed` by at most the number of items. -/
theorem runLoop_processed_le (st : LoopState) (items : List ItemWorld) :
    (runLoop st items).1.processed ≤ st.processed + items.length := by
  induction items generalizing st with
  | nil => simp [runLoop]
  | cons w rest ih =>
      rw [runLoop_cons_eq]
      have h1 := ih (processItem st w).1
      rcases processItem_processed_cases st w with h2 | h2 <;>
        simp only [List.length_cons] <;> omega

/-- The loop preserves `inserted ≤ processed`. -/
theorem runLoop_inserted_le (st : LoopState) (items : List ItemWorld)
    (h : st.inserted ≤ st.processed) :
    (runLoop st items).1.inserted ≤ (runLoop st items).1.processed := by
  induction items generalizing st with
  | nil => simpa [runLoop]
  | cons w rest ih =>
      rw [runLoop_cons_eq]
      exact ih (processItem st w).1 (processItem_inserted_le st w h)

/-! ## Claim C4 -/

/-- C4: for every nonempty sequence of discovered articles, whatever
per-item faults occur (including database exceptions raised by individual
insert attempts), the run still scrapes every ref in order, commits at the
end, never rolls back, and exits with code 0 — a per-item exception never
aborts the run. -/
theorem c4_per_item_faults_isolated (w : RunWorld) (items : List ItemWorld)
    (hconn : get_db_connection w = true)
    (hdisc : w.discovery = .ok items)
    (hne : items ≠ []) :
    (runPipeline w).committed = true
    ∧ (runPipeline w).rolledBack = false
    ∧ (runPipeline w).exitCode = 0
    ∧ (runPipeline w).events.filterMap Event.scrapeUrl
        = items.map (fun i => i.ref.url) := by
  have hempty : items.isEmpty = false := by
    cases items
    · exact absurd rfl hne
    · rfl
  simp [runPipeline, hconn, hdisc, hempty, runLoop_scrapeUrls,
        Event.scrapeUrl]

/-- C4 witness: a run whose first article's insert raises; the second
article is still scraped and the run commits. -/
theorem c4_per_item_faults_witness :
    get_db_connection (sampleWorld (.ok [sampleInsertRaises, sampleAllOk]))
        = true
    ∧ (sampleWorld (.ok [sampleInsertRaises, sampleAllOk])).discovery
        = .ok [sampleInsertRaises, sampleAllOk]
    ∧ [sampleInsertRaises, sampleAllOk] ≠ ([] : List ItemWorld)
    ∧ ((runPipeline (sampleWorld
          (.ok [sampleInsertRaises, sampleAllOk]))).committed = true
      ∧ (runPipeline (sampleWorld
          (.ok [sampleInsertRaises, sampleAllOk]))).rolledBack = false
      ∧ (runPipeline (sampleWorld
          (.ok [sampleInsertRaises, sampleAllOk]))).exitCode = 0
      ∧ (runPipeline (sampleWorld
          (.ok [sampleInsertRaises, sampleAllOk]))).events.filterMap
            Event.scrapeUrl
          = [sampleInsertRaises, sampleAllOk].map (fun i => i.ref.url)) :=
  ⟨rfl, rfl, by simp,
   c4_per_item_faults_isolated
     (sampleWorld (.ok [sampleInsertRaises, sampleAllOk]))
     [sampleInsertRaises, sampleAllOk] rfl rfl (by simp)⟩

/-! ## Claim C5 -/

/-- C5: for every run with a working connection and successful discovery,
the number of store-insert attempts equals the number of discovered items
whose scrape did not return absent. -/
theorem c5_store_attempts_eq_present_scrapes (w : RunWorld)
    (items : List ItemWorld)
    (hconn : get_db_connection w = true)
    (hdisc : w.discovery = .ok items) :
    ((runPipeline w).events.filter Event.isInsertAttempt).length
      = (items.filter (fun i => (get_article_text i.fetch).isSome)).length := by
  cases items with
  | nil => simp [runPipeline, hconn, hdisc, Event.isInsertAttempt]
  | cons a rest =>
      simp [runPipeline, hconn, hdisc, Event.isInsertAttempt,
            runLoop_insertAttempts]

/-- C5 witness: two articles, one scrape failing, one succeeding — one
insert attempt. -/
theorem c5_store_attempts_witness :
    get_db_connection (sampleWorld (.ok [sampleScrapeFail, sampleAllOk]))
        = true
    ∧ (sampleWorld (.ok [sampleScrapeFail, sampleAllOk])).discovery
        = .ok [sampleScrapeFail, sampleAllOk]
    ∧ ((runPipeline (sampleWorld
          (.ok [sampleScrapeFail, sampleAllOk]))).events.filter
            Event.isInsertAttempt).length
        = ([sampleScrapeFail, sampleAllOk].filter
            (fun i => (get_article_text i.fetch).isSome)).length :=
  ⟨rfl, rfl,
   c5_store_attempts_eq_present_scrapes
     (sampleWorld (.ok [sampleScrapeFail, sampleAllOk]))
     [sampleScrapeFail, sampleAllOk] rfl rfl⟩

/-! ## Claim C6 -/

/-- C6: for every article whose scrape returns absent, that iteration makes
zero classification calls and zero insert attempts, leaves the table and
counters unchanged, and the loop continues with the next ref. -/
theorem c6_scrape_absent_zero_work (st : LoopState) (w : ItemWorld)
    (rest : List ItemWorld)
    (habs : get_article_text w.fetch = none) :
    processItem st w = (st, [.scrapeCall w.ref.url])
    ∧ (processItem st w).2.filter Event.isClassifyCall = []
    ∧ (processItem st w).2.filter Event.isInsertAttempt = []
    ∧ (processItem st w).1.db = st.db
    ∧ runLoop st (w :: rest)
        = ((runLoop st rest).1,
           .scrapeCall w.ref.url :: (runLoop st rest).2) := by
  have h1 := processItem_scrape_none st w habs
  refine ⟨h1, ?_, ?_, ?_, ?_⟩ <;>
    simp [h1, runLoop_cons_eq, Event.isClassifyCall, Event.isInsertAttempt]

/-- C6 witness: a concrete article whose fetch returns a non-200 status,
followed by one more article. -/
theorem c6_scrape_absent_witness :
    get_article_text sampleScrapeFail.fetch = none
    ∧ (processItem ⟨[], 0, 0⟩ sampleScrapeFail
        = (⟨[], 0, 0⟩, [.scrapeCall sampleScrapeFail.ref.url])
      ∧ (processItem ⟨[], 0, 0⟩ sampleScrapeFail).2.filter
          Event.isClassifyCall = []
      ∧ (processItem ⟨[], 0, 0⟩ sampleScrapeFail).2.filter
          Event.isInsertAttempt = []
      ∧ (processItem ⟨[], 0, 0⟩ sampleScrapeFail).1.db
          = (⟨[], 0, 0⟩ : LoopState).db
      ∧ runLoop ⟨[], 0, 0⟩ [sampleScrapeFail, sampleAllOk]
          = ((runLoop ⟨[], 0, 0⟩ [sampleAllOk]).1,
             .scrapeCall sampleScrapeFail.ref.url
               :: (runLoop ⟨[], 0, 0⟩ [sampleAllOk]).2)) :=
  ⟨rfl, c6_scrape_absent_zero_work ⟨[], 0, 0⟩ sampleScrapeFail
    [sampleAllOk] rfl⟩

/-! ## Claim C10 -/

/-- C10: at every point of the loop (after any prefix of the discovered
items) the counters satisfy `inserted ≤ processed ≤ number of discovered
articles`; each step increments `processed` by at most one, exactly when the
item's insert attempt completes without exception, and increments `inserted`
only in such a step and only when the insert wrote a new row. -/
theorem c10_counter_invariants (db0 : Store) (items : List ItemWorld)
    (n : Nat) (st : LoopState) (w : ItemWorld) :
    ((runLoop ⟨db0, 0, 0⟩ (items.take n)).1.inserted
        ≤ (runLoop ⟨db0, 0, 0⟩ (items.take n)).1.processed
      ∧ (runLoop ⟨db0, 0, 0⟩ (items.take n)).1.processed ≤ items.length)
    ∧ ((processItem st w).1.processed = st.processed
        ∨ (processItem st w).1.processed = st.processed + 1)
    ∧ ((processItem st w).1.processed = st.processed + 1
        ↔ (get_article_text w.fetch).isSome = true ∧ w.insertRaises = false)
    ∧ ((processItem st w).1.inserted = st.inserted
        ∨ ((processItem st w).1.inserted = st.inserted + 1
            ∧ (processItem st w).1.processed = st.processed + 1
            ∧ (processItem st w).1.db.length = st.db.length + 1)) := by
  refine ⟨⟨runLoop_inserted_le _ _ (Nat.le_refl 0), ?_⟩,
          processItem_processed_cases st w,
          processItem_processed_iff st w,
          processItem_inserted_cases st w⟩
  have h1 : (runLoop ⟨db0, 0, 0⟩ (items.take n)).1.processed
      ≤ 0 + (items.take n).length :=
    runLoop_processed_le (⟨db0, 0, 0⟩ : LoopState) (items.take n)
  have h2 : (items.take n).length ≤ items.length := by
    simp [List.length_take]
  omega

end ETL
